import Mathlib

/-!
# Verification of the podcast media post-processing pipeline

Shallow embedding of the asynchronous media pipeline of the podcast
recording backend: the ffmpeg transcoder task, the frame compositor
(background removal), the transcription client, the segment state store
writes, and the upload route's file naming.  External libraries
(OpenCV, MediaPipe, MoviePy, AssemblyAI, the ffmpeg binary) are modelled
as oracles supplied through environment records; everything else is
translated from the backend source.
-/

namespace Podcast

/-! ### Python string operations, modelled on character lists -/

/-- Python `s.startswith(p)`. -/
def strStartsWith (s p : String) : Bool := p.toList.isPrefixOf s.toList

/-- Python `s.endswith(p)`. -/
def strEndsWith (s p : String) : Bool := p.toList.isSuffixOf s.toList

/-- Python `s.lower()`. -/
def strToLower (s : String) : String := String.mk (s.toList.map Char.toLower)

/-- Python `s.find(needle)` for a nonempty needle: index of the first
occurrence of `needle` in `hay`, or `none` (`-1` in Python) when absent. -/
def findSub (needle : List Char) : List Char → Option Nat
  | [] => none
  | c :: rest =>
    if needle.isPrefixOf (c :: rest) then some 0
    else
      match findSub needle rest with
      | some i => some (i + 1)
      | none => none

/-- Python `hay.replace(needle, repl, 1)`: replace the first occurrence only. -/
def replaceOnce (needle repl hay : List Char) : List Char :=
  match findSub needle hay with
  | some i => hay.take i ++ repl ++ hay.drop (i + needle.length)
  | none => hay

/-! ### Segment rows and the segment state store

From `src/backend/app/db/models.py` (class `Segment`): the columns of a
segment row other than its key `(episode_id, id)`.  The store is a keyed
lookup, `None` when no row matches the filter. -/

inductive SegmentType where
  | human
  | bot
  | source
  deriving DecidableEq, Repr

structure Segment where
  segment_type : SegmentType
  order_index : Int
  text_content : Option String
  audio_path : Option String
  raw_audio_path : Option String
  video_path : Option String
  raw_video_path : Option String
  duration : Option Int
  created_at : Nat
  deriving DecidableEq, Repr

abbrev SegmentKey := Int × Int

abbrev SegmentStore := SegmentKey → Option Segment

/-- `update_segment_video_path` from `src/backend/app/lib/video.py`:
query the row by `(episode_id, id)`; if found, set `video_path` and
commit; if absent, do nothing (no error is raised either way). -/
def update_segment_video_path (store : SegmentStore) (episode_id segment_id : Int)
    (video_path : String) : SegmentStore :=
  fun k =>
    if k = (episode_id, segment_id) then
      match store (episode_id, segment_id) with
      | some seg => some { seg with video_path := some video_path }
      | none => none
    else store k

/-- `update_segment_text_content` from `src/backend/app/lib/audio.py`:
query the row by `(episode_id, id)`; if found, set `text_content` and
commit; if absent, do nothing. -/
def update_segment_text_content (store : SegmentStore) (episode_id segment_id : Int)
    (text : String) : SegmentStore :=
  fun k =>
    if k = (episode_id, segment_id) then
      match store (episode_id, segment_id) with
      | some seg => some { seg with text_content := some text }
      | none => none
    else store k

/-! ### Transcription client (`src/backend/app/lib/audio.py`, `transcribe_audio`) -/

/-- Result object returned by the AssemblyAI transcriber. -/
structure Transcript where
  status : String
  text : Option String
  deriving DecidableEq, Repr

/-- `transcribe_audio`: guard on the configured API key (the empty string
is falsy in Python), then call the service; a service exception
(`Except.error`) is caught and folded into the failure triple. -/
def transcribe_audio (assemblyai_api_key : String)
    (service : Except String Transcript) : Bool × String × Option String :=
  if assemblyai_api_key = "" then
    (false, "AssemblyAI API key not configured", none)
  else
    match service with
    | .error e => (false, "Error during transcription: " ++ e, none)
    | .ok transcript =>
      if transcript.status = "completed" then
        (true, "Transcription completed successfully", transcript.text)
      else
        (false, "Transcription failed with status: " ++ transcript.status, none)

/-- Python truthiness of an optional string (`None` and `""` are falsy). -/
def pyTruthy : Option String → Bool
  | none => false
  | some s => if s = "" then false else true

/-- `transcribe_video_task` from `src/backend/app/celery_app.py`: run
`transcribe_audio`; persist the text only when `success and transcription`
is truthy, otherwise just log. -/
def transcribe_video_task (store : SegmentStore) (assemblyai_api_key : String)
    (service : Except String Transcript) (episode_id segment_id : Int) : SegmentStore :=
  match transcribe_audio assemblyai_api_key service with
  | (success, _message, transcription) =>
    if success && pyTruthy transcription then
      update_segment_text_content store episode_id segment_id (transcription.getD "")
    else
      store

/-! ### Frame compositor (`src/backend/app/lib/video.py`, `remove_background_from_video`)

Pixels are BGR channel triples of 8-bit values; masks carry the per-pixel
foreground probability.  Exact rational arithmetic stands in for the
float32 arithmetic of the source.  MediaPipe selfie segmentation,
`cv2.GaussianBlur(mask, (21, 21), 0)`, `cv2.imread` and the final MoviePy
mux are external collaborators, modelled in `CompEnv`. -/

abbrev Pixel := Nat × Nat × Nat

abbrev Frame := Nat → Nat → Pixel

abbrev Mask := Nat → Nat → ℚ

structure Image where
  width : Nat
  height : Nat
  pix : Nat → Nat → Pixel

structure VideoInput where
  width : Nat
  height : Nat
  fps : ℚ
  frames : List Frame
  audio : Option (List Int)

structure CompEnv where
  selfie_segmentation : Frame → Mask
  gaussian_blur_21x21 : Mask → Mask
  bg_decode : Option Image
  mux_ok : Bool

/-- `cv2.cvtColor(frame, cv2.COLOR_BGR2RGB)`: swap the first and third channels. -/
def bgr2rgb (f : Frame) : Frame := fun x y =>
  ((f x y).2.2, (f x y).2.1, (f x y).1)

/-- `cv2.resize(img, (w, h))`: hard stretch to exactly `w × h`, sampling
the source without preserving its aspect ratio. -/
def cv2_resize (img : Image) (w h : Nat) : Image :=
  { width := w
    height := h
    pix := fun x y => img.pix (x * img.width / w) (y * img.height / h) }

/-- `np.astype(np.uint8)` on a nonnegative float: truncate to an integer. -/
def toUint8 (q : ℚ) : Nat := (⌊q⌋).toNat

/-- One channel of `composite = alpha * foreground + (1 - alpha) * background`
with `foreground = frame / 255.0`, `background = bg / 255.0`, followed by
`(composite * 255).astype(np.uint8)`. -/
def blendChannel (a : ℚ) (f b : Nat) : Nat :=
  toUint8 ((a * ((f : ℚ) / 255) + (1 - a) * ((b : ℚ) / 255)) * 255)

/-- The per-pixel alpha blend of one frame over the resized background. -/
def compositeFrame (alpha : Mask) (frame : Frame) (bg : Image) : Frame := fun x y =>
  (blendChannel (alpha x y) (frame x y).1 (bg.pix x y).1,
   blendChannel (alpha x y) (frame x y).2.1 (bg.pix x y).2.1,
   blendChannel (alpha x y) (frame x y).2.2 (bg.pix x y).2.2)

/-- One iteration of the frame loop: segment the RGB-converted frame,
blur the mask with the 21×21 Gaussian kernel, and composite. -/
def processFrame (env : CompEnv) (bg : Image) (frame : Frame) : Frame :=
  compositeFrame (env.gaussian_blur_21x21 (env.selfie_segmentation (bgr2rgb frame))) frame bg

inductive CompErr where
  | invalidVideoDimensions (msg : String)
  | backgroundImageMissing (msg : String)
  | muxError
  deriving DecidableEq, Repr

structure OutputVideo where
  frames : List Frame
  audio : Option (List Int)
  video_codec : Option String
  audio_codec : Option String

/-- Filesystem facts observable after the compositor returns or raises:
which of the files it manages exist, and the content written at the
output path (when any). -/
structure CompFS where
  files : List String
  output : Option OutputVideo

/-- The intermediate video-only file name, `output_video_path + ".video_only.mp4"`. -/
def temp_video_path (output_video_path : String) : String :=
  output_video_path ++ ".video_only.mp4"

/-- `remove_background_from_video`: check dimensions, decode and resize
the background, composite every decoded frame into the video-only
temporary file, then mux the original audio back (codec `libx264`, audio
codec `aac`) when the source has audio, or rename the temporary file
otherwise.  The temporary file is removed only on the success paths: an
exception raised by the final mux propagates before the cleanup code at
the end of the function runs. -/
def remove_background_from_video (env : CompEnv)
    (input_video_path background_image_path output_video_path : String)
    (v : VideoInput) : Except CompErr Unit × CompFS :=
  if v.width = 0 ∨ v.height = 0 then
    (.error (.invalidVideoDimensions
        ("Failed to get video dimensions for: " ++ input_video_path ++
         ". Got width=" ++ toString v.width ++ ", height=" ++ toString v.height)),
     ⟨[], none⟩)
  else
    match env.bg_decode with
    | none =>
      (.error (.backgroundImageMissing
          ("Background image not found or could not be loaded: " ++ background_image_path)),
       ⟨[], none⟩)
    | some bg0 =>
      let bg := cv2_resize bg0 v.width v.height
      let outFrames := v.frames.map (processFrame env bg)
      match v.audio with
      | some aud =>
        if env.mux_ok then
          (.ok (), ⟨[output_video_path], some ⟨outFrames, some aud, some "libx264", some "aac"⟩⟩)
        else
          (.error .muxError, ⟨[temp_video_path output_video_path], none⟩)
      | none =>
        (.ok (), ⟨[output_video_path], some ⟨outFrames, none, none, none⟩⟩)

/-! ### Celery tasks and the task graph (`src/backend/app/celery_app.py`) -/

/-- The relative path stored for the composited video
(`src/backend/app/celery_app.py`, line 46): the suffix of the output path
from the first occurrence of `/episodes/` when present, otherwise the
path unchanged. -/
def relPathForDb (output_video_path : String) : String :=
  match findSub "/episodes/".toList output_video_path.toList with
  | some i => String.mk (output_video_path.toList.drop i)
  | none => output_video_path

/-- `remove_background_task`: run the compositor inside `try`; on success
persist the relative output path; any exception is caught and only logged. -/
def remove_background_task (store : SegmentStore) (env : CompEnv)
    (input_video_path background_image_path output_video_path : String)
    (v : VideoInput) (episode_id segment_id : Int) : SegmentStore :=
  match (remove_background_from_video env input_video_path background_image_path
      output_video_path v).1 with
  | .ok _ => update_segment_video_path store episode_id segment_id (relPathForDb output_video_path)
  | .error _ => store

/-- The fixed ffmpeg command line of `convert_video_to_mp4_task`. -/
def ffmpeg_cmd (input_path output_path : String) : List String :=
  ["ffmpeg", "-i", input_path, "-c:v", "libx264", "-preset", "fast", "-crf", "23",
   "-c:a", "aac", "-b:a", "128k", "-y", output_path]

/-- `convert_video_to_mp4_task`: run ffmpeg; a zero return code completes
silently, any other return code raises
`Exception("ffmpeg conversion failed: " + stderr)`. -/
def convert_video_to_mp4_task (ffmpeg_returncode : Int) (ffmpeg_stderr : String) :
    Except String Unit :=
  if ffmpeg_returncode = 0 then .ok ()
  else .error ("ffmpeg conversion failed: " ++ ffmpeg_stderr)

/-- The two fanout branches run concurrently with no ordering guarantee;
`transcribe_first` selects one of the two possible serializations of
their store writes. -/
def run_fanout (store : SegmentStore) (transcribe_first : Bool)
    (assemblyai_api_key : String) (service : Except String Transcript) (env : CompEnv)
    (input_video_path background_image_path output_video_path : String)
    (v : VideoInput) (episode_id segment_id : Int) : SegmentStore :=
  if transcribe_first then
    remove_background_task
      (transcribe_video_task store assemblyai_api_key service episode_id segment_id)
      env input_video_path background_image_path output_video_path v episode_id segment_id
  else
    transcribe_video_task
      (remove_background_task store env input_video_path background_image_path
        output_video_path v episode_id segment_id)
      assemblyai_api_key service episode_id segment_id

structure PipelineResult where
  fanout_submitted : Bool
  store : SegmentStore
  failed : Option String

/-- Modelled from the spec: the upload-accepting layer's task-graph
submission (the code chaining `convert_video_to_mp4_task` into the two
fanout tasks is not under `src/`; only the task bodies are).  Per the
spec's orchestrator state machine, the transcoder task is the sole
predecessor of the fanout barrier: on its success both fanout branches
are submitted; on its failure the job is Failed and no fanout task is
ever submitted. -/
def run_pipeline (store : SegmentStore) (ffmpeg_returncode : Int) (ffmpeg_stderr : String)
    (transcribe_first : Bool) (assemblyai_api_key : String)
    (service : Except String Transcript) (env : CompEnv)
    (input_video_path background_image_path output_video_path : String)
    (v : VideoInput) (episode_id segment_id : Int) : PipelineResult :=
  match convert_video_to_mp4_task ffmpeg_returncode ffmpeg_stderr with
  | .error e => ⟨false, store, some e⟩
  | .ok _ =>
    ⟨true,
     run_fanout store transcribe_first assemblyai_api_key service env
       input_video_path background_image_path output_video_path v episode_id segment_id,
     none⟩

/-! ### Upload route file naming (`src/backend/app/api/routes/audio.py`, `upload_video`) -/

abbrev FileStore := String → Option (List Nat)

/-- `orig_ext = os.path.splitext(file.filename)[1] or ".webm"`: the empty
extension is falsy, so it defaults to `.webm`. -/
def upload_orig_ext (filename_ext : String) : String :=
  if filename_ext = "" then ".webm" else filename_ext

/-- The path the raw upload is saved at: `{segments_dir}/{segment_id}_video{orig_ext}`. -/
def upload_raw_path (episodes_dir : String) (episode_id segment_id : Int)
    (filename_ext : String) : String :=
  episodes_dir ++ "/" ++ toString episode_id ++ "/segments/" ++ toString segment_id ++
    "_video" ++ upload_orig_ext filename_ext

/-- The path of the converted MP4: `{segments_dir}/{segment_id}_video.mp4`. -/
def upload_mp4_path (episodes_dir : String) (episode_id segment_id : Int) : String :=
  episodes_dir ++ "/" ++ toString episode_id ++ "/segments/" ++ toString segment_id ++
    "_video.mp4"

/-- The relative video path stored on the segment row.  It depends only on
the episode id, the segment id and the upload's extension: there is no
per-upload nonce anywhere in it. -/
def upload_rel_path (episode_id segment_id : Int) (filename_ext : String) : String :=
  if strToLower (upload_orig_ext filename_ext) = ".webm" then
    "/episodes/" ++ toString episode_id ++ "/segments/" ++ toString segment_id ++ "_video.mp4"
  else
    "/episodes/" ++ toString episode_id ++ "/segments/" ++ toString segment_id ++
      "_video" ++ upload_orig_ext filename_ext

/-- Write (or, with `none`, delete) one file in a file store; `open(path,
"wb")` truncates, so a write replaces whatever was at the path. -/
def fs_write (fs : FileStore) (path : String) (c : Option (List Nat)) : FileStore :=
  fun p => if p = path then c else fs p

/-- Outcome of the `upload_video` route: the 201 response carrying the
stored relative path, or the 500 raised from the except branch after its
cleanup has run. -/
inductive UploadResult where
  | created (rel_path : String)
  | error500
  deriving DecidableEq, Repr

/-- `upload_video` (`src/backend/app/api/routes/audio.py`, lines 160-234):
save the upload as `{segment_id}_video{orig_ext}` (truncating any
existing file at that path); when the lower-cased extension is `.webm`,
run the route's inline ffmpeg command.  Unlike the transcoder task's
command, it has no `-y` flag, so the non-interactive encoder refuses to
overwrite an existing destination and exits non-zero; `ffmpeg_ok` models
any other encoder failure.  On `returncode != 0` the route raises, and
the except branch deletes the raw file (`video_path` is still the raw
path at the raise) and the mp4 when present, before returning a 500.  On
success the mp4 holds the encoded content and the deterministic relative
path is returned; the subsequent duration and transcription steps are
modelled as succeeding. -/
def upload_video (episodes_dir : String) (ffmpeg_encode : List Nat → List Nat)
    (ffmpeg_ok : Bool) (fs : FileStore) (episode_id segment_id : Int)
    (filename_ext : String) (content : List Nat) : FileStore × UploadResult :=
  if strToLower (upload_orig_ext filename_ext) = ".webm" then
    match fs_write fs (upload_raw_path episodes_dir episode_id segment_id filename_ext)
        (some content) (upload_mp4_path episodes_dir episode_id segment_id) with
    | none =>
      if ffmpeg_ok then
        (fs_write
          (fs_write fs (upload_raw_path episodes_dir episode_id segment_id filename_ext)
            (some content))
          (upload_mp4_path episodes_dir episode_id segment_id)
          (some (ffmpeg_encode content)),
         .created (upload_rel_path episode_id segment_id filename_ext))
      else
        (fs_write
          (fs_write
            (fs_write fs (upload_raw_path episodes_dir episode_id segment_id filename_ext)
              (some content))
            (upload_raw_path episodes_dir episode_id segment_id filename_ext) none)
          (upload_mp4_path episodes_dir episode_id segment_id) none,
         .error500)
    | some _ =>
      (fs_write
        (fs_write
          (fs_write fs (upload_raw_path episodes_dir episode_id segment_id filename_ext)
            (some content))
          (upload_raw_path episodes_dir episode_id segment_id filename_ext) none)
        (upload_mp4_path episodes_dir episode_id segment_id) none,
       .error500)
  else
    (fs_write fs (upload_raw_path episodes_dir episode_id segment_id filename_ext)
      (some content),
     .created (upload_rel_path episode_id segment_id filename_ext))

/-! ### Path resolution in `generate_speech` (`src/backend/app/lib/audio.py`) -/

/-- `os.path.join(a, b)` for one path component. -/
def path_join (a b : String) : String :=
  if strStartsWith b "/" then b
  else if a = "" then b
  else if strEndsWith a "/" then a ++ b
  else a ++ "/" ++ b

/-- The path handling of `generate_speech`: a path starting with
`/episodes/` has that first occurrence removed and the remainder joined
onto the configured episodes directory; any other path is used as-is. -/
def resolve_output_path (episodes_dir output_path : String) : String :=
  if strStartsWith output_path "/episodes/" then
    path_join episodes_dir
      (String.mk (replaceOnce "/episodes/".toList [] output_path.toList))
  else output_path

/-! ### Concrete sample inputs, used to evaluate the development -/

def mask_half : Mask := fun _ _ => 1 / 2

def frame0 : Frame := fun _ _ => (10, 20, 30)

def frame1 : Frame := fun _ _ => (100, 150, 200)

def img0 : Image := ⟨1, 1, fun _ _ => (40, 50, 60)⟩

def env0 : CompEnv := ⟨fun _ => mask_half, id, some img0, true⟩

def env_muxfail : CompEnv := ⟨fun _ => mask_half, id, some img0, false⟩

def env_nobg : CompEnv := ⟨fun _ => mask_half, id, none, true⟩

def v0 : VideoInput := ⟨1, 1, 30, [frame0, frame1], none⟩

def v0a : VideoInput := ⟨1, 1, 30, [frame0], some [3, 1, 4]⟩

def v_bad : VideoInput := ⟨0, 1, 30, [], none⟩

def seg0 : Segment := ⟨.human, 0, none, none, none, none, none, none, 0⟩

def store0 : SegmentStore := fun _ => none

def store1 : SegmentStore := fun k => if k = (1, 2) then some seg0 else none

def fs_empty : FileStore := fun _ => none

/-! ### Helper lemmas -/

theorem findSub_isPrefixOf_drop (needle : List Char) :
    ∀ (hay : List Char) (i : Nat), findSub needle hay = some i →
      needle.isPrefixOf (hay.drop i) = true := by
  intro hay
  induction hay with
  | nil => intro i h; simp [findSub] at h
  | cons c rest ih =>
    intro i h
    simp only [findSub] at h
    by_cases hp : needle.isPrefixOf (c :: rest) = true
    · rw [if_pos hp] at h
      injection h with h
      subst h
      simpa using hp
    · rw [if_neg hp] at h
      cases hr : findSub needle rest with
      | none => rw [hr] at h; cases h
      | some j =>
        rw [hr] at h
        injection h with h
        subst h
        simpa using ih j hr

theorem isPrefixOf_append_self (nd l : List Char) : nd.isPrefixOf (nd ++ l) = true :=
  List.isPrefixOf_iff_prefix.mpr (List.prefix_append nd l)

theorem findSub_append_self (nd l : List Char) (h : nd ≠ []) :
    findSub nd (nd ++ l) = some 0 := by
  cases nd with
  | nil => exact absurd rfl h
  | cons c rest =>
    simp only [List.cons_append, findSub]
    rw [show (c :: rest).isPrefixOf (c :: rest.append l) = true from
      isPrefixOf_append_self (c :: rest) l]
    rfl

theorem strStartsWith_append (s t : String) : strStartsWith (s ++ t) s = true := by
  unfold strStartsWith
  have hdata : (s ++ t).toList = s.toList ++ t.toList := String.data_append s t
  rw [hdata]
  exact isPrefixOf_append_self s.toList t.toList

theorem append_video_only_ne (s : String) : s ++ ".video_only.mp4" ≠ s := by
  intro h
  have hl := congrArg String.length h
  rw [String.length_append] at hl
  have h15 : (".video_only.mp4" : String).length = 15 := rfl
  rw [h15] at hl
  omega

theorem strToLower_length (s : String) : (strToLower s).length = s.length := by
  show (s.data.map Char.toLower).length = s.data.length
  exact List.length_map s.data Char.toLower

theorem upload_raw_ne_mp4 (d : String) (eid sid : Int) (ext : String)
    (hw : strToLower (upload_orig_ext ext) = ".webm") :
    upload_raw_path d eid sid ext ≠ upload_mp4_path d eid sid := by
  intro h
  have hx : (upload_orig_ext ext).length = 5 := by
    have hlw := congrArg String.length hw
    have h5 : (".webm" : String).length = 5 := rfl
    rw [strToLower_length, h5] at hlw
    exact hlw
  have hlen := congrArg String.length h
  unfold upload_raw_path upload_mp4_path at hlen
  simp only [String.length_append] at hlen
  have h1 : ("/" : String).length = 1 := rfl
  have h9 : ("/segments/" : String).length = 10 := rfl
  have h6 : ("_video" : String).length = 6 := rfl
  have h10 : ("_video.mp4" : String).length = 10 := rfl
  rw [h1, h9, h6, h10, hx] at hlen
  omega

theorem transcribe_audio_fst_false (key : String) (svc : Except String Transcript)
    (ht : ∀ t, svc = .ok t → t.status ≠ "completed") :
    (transcribe_audio key svc).1 = false := by
  unfold transcribe_audio
  by_cases hk : key = ""
  · simp [hk]
  · rw [if_neg hk]
    cases svc with
    | error e => rfl
    | ok t => simp [ht t rfl]

theorem transcribe_video_task_noop (store : SegmentStore) (key : String)
    (svc : Except String Transcript) (eid sid : Int)
    (h : (transcribe_audio key svc).1 = false) :
    transcribe_video_task store key svc eid sid = store := by
  unfold transcribe_video_task
  rcases hta : transcribe_audio key svc with ⟨s, m, tr⟩
  rw [hta] at h
  simp only at h
  subst h
  simp

/-! ### Claim theorems -/

/-- C7: every pipeline write to the segment store modifies exactly one
field — `video_path` on compositor success, `text_content` on
transcription success — leaving every other field of the row and every
other row unchanged, never creating or deleting a segment; and when the
row no longer exists the write is a silent no-op. -/
theorem segment_store_write_spec (store : SegmentStore) (episode_id segment_id : Int)
    (p t : String) :
    (∀ seg, store (episode_id, segment_id) = some seg →
      update_segment_video_path store episode_id segment_id p (episode_id, segment_id) =
          some { seg with video_path := some p } ∧
        update_segment_text_content store episode_id segment_id t (episode_id, segment_id) =
          some { seg with text_content := some t }) ∧
    (∀ k, k ≠ (episode_id, segment_id) →
      update_segment_video_path store episode_id segment_id p k = store k ∧
        update_segment_text_content store episode_id segment_id t k = store k) ∧
    (store (episode_id, segment_id) = none →
      ∀ k, update_segment_video_path store episode_id segment_id p k = store k ∧
        update_segment_text_content store episode_id segment_id t k = store k) := by
  refine ⟨fun seg hseg => ?_, fun k hk => ?_, fun hnone k => ?_⟩
  · constructor <;> simp [update_segment_video_path, update_segment_text_content, hseg]
  · constructor <;> simp [update_segment_video_path, update_segment_text_content, hk]
  · by_cases hk : k = (episode_id, segment_id)
    · subst hk
      constructor <;>
        simp [update_segment_video_path, update_segment_text_content, hnone]
    · constructor <;> simp [update_segment_video_path, update_segment_text_content, hk]

/-- Witness for C7 at a concrete store holding one segment. -/
theorem segment_store_write_spec_witness :
    (update_segment_video_path store1 1 2 "a.mp4" (1, 2) =
        some { seg0 with video_path := some "a.mp4" } ∧
      update_segment_text_content store1 1 2 "hi" (1, 2) =
        some { seg0 with text_content := some "hi" }) ∧
    (update_segment_video_path store1 1 2 "a.mp4" (9, 9) = store1 (9, 9)) ∧
    (update_segment_video_path store0 1 2 "a.mp4" (1, 2) = store0 (1, 2)) := by
  refine ⟨?_, ?_, ?_⟩
  · exact (segment_store_write_spec store1 1 2 "a.mp4" "hi").1 seg0 (by decide)
  · exact ((segment_store_write_spec store1 1 2 "a.mp4" "hi").2.1 (9, 9) (by decide)).1
  · exact ((segment_store_write_spec store0 1 2 "a.mp4" "hi").2.2 rfl (1, 2)).1

/-- C10: with no AssemblyAI API key configured, `transcribe_audio` returns
the failure triple `(False, message, None)` without consulting the
service (its result is independent of the service outcome); a service
exception is likewise folded into a failure triple with a `None`
transcript instead of propagating; and whenever the triple is a failure
the segment's text content is not modified. -/
theorem transcription_guard_spec (key : String) (svc : Except String Transcript)
    (store : SegmentStore) (eid sid : Int) :
    (∀ s₁ s₂ : Except String Transcript, transcribe_audio "" s₁ = transcribe_audio "" s₂) ∧
    (transcribe_audio "" svc = (false, "AssemblyAI API key not configured", none)) ∧
    (∀ e, key ≠ "" → transcribe_audio key (.error e) =
      (false, "Error during transcription: " ++ e, none)) ∧
    ((transcribe_audio key svc).1 = false →
      transcribe_video_task store key svc eid sid = store) := by
  refine ⟨fun s₁ s₂ => rfl, rfl, fun e hk => ?_, fun h => ?_⟩
  · simp [transcribe_audio, hk]
  · exact transcribe_video_task_noop store key svc eid sid h

/-- Witness for C10 at concrete keys, services and store. -/
theorem transcription_guard_spec_witness :
    (transcribe_audio "" (.ok ⟨"completed", some "x"⟩) = transcribe_audio "" (.error "y")) ∧
    (transcribe_audio "" (.error "z") = (false, "AssemblyAI API key not configured", none)) ∧
    (transcribe_audio "k" (.error "boom") =
      (false, "Error during transcription: " ++ "boom", none)) ∧
    (transcribe_video_task store1 "" (.error "z") 1 2 = store1) := by
  refine ⟨?_, ?_, ?_, ?_⟩
  · exact (transcription_guard_spec "" (.error "z") store1 1 2).1
      (.ok ⟨"completed", some "x"⟩) (.error "y")
  · exact (transcription_guard_spec "" (.error "z") store1 1 2).2.1
  · exact (transcription_guard_spec "k" (.error "z") store1 1 2).2.2.1 "boom" (by decide)
  · exact (transcription_guard_spec "" (.error "z") store1 1 2).2.2.2 rfl

/-- C2: a non-zero encoder exit status makes the transcoder task raise
(`Exception("ffmpeg conversion failed: ...")`), the orchestrator submits
no fanout task and the segment store is left unmodified; a zero exit
status completes the task without error. -/
theorem transcode_failure_spec (store : SegmentStore) (rc : Int) (stderr : String)
    (tf : Bool) (key : String) (svc : Except String Transcript) (env : CompEnv)
    (pin pbg pout : String) (v : VideoInput) (eid sid : Int) :
    (rc ≠ 0 →
      run_pipeline store rc stderr tf key svc env pin pbg pout v eid sid =
        ⟨false, store, some ("ffmpeg conversion failed: " ++ stderr)⟩) ∧
    (rc = 0 → convert_video_to_mp4_task rc stderr = .ok ()) := by
  constructor
  · intro h
    simp [run_pipeline, convert_video_to_mp4_task, h]
  · intro h
    simp [convert_video_to_mp4_task, h]

/-- Witness for C2 at exit statuses 1 and 0. -/
theorem transcode_failure_spec_witness :
    (run_pipeline store0 1 "boom" true "" (.error "x") env0 "a.webm" "bg.png" "c.mp4" v0 1 2 =
      ⟨false, store0, some ("ffmpeg conversion failed: " ++ "boom")⟩) ∧
    convert_video_to_mp4_task 0 "" = .ok () := by
  constructor
  · exact (transcode_failure_spec store0 1 "boom" true "" (.error "x") env0
      "a.webm" "bg.png" "c.mp4" v0 1 2).1 (by decide)
  · exact (transcode_failure_spec store0 0 "" true "" (.error "x") env0
      "a.webm" "bg.png" "c.mp4" v0 1 2).2 rfl

/-- C4: a zero reported width or height fails the compositor with the
invalid-dimensions error before any file is written; with valid
dimensions, an undecodable background image fails with the
background-missing error, again with no file written; and a decoded
background is resized to exactly the input video's width and height,
whatever its own aspect ratio. -/
theorem compositor_error_spec (env : CompEnv) (pin pbg pout : String) (v : VideoInput) :
    ((v.width = 0 ∨ v.height = 0) →
      remove_background_from_video env pin pbg pout v =
        (.error (.invalidVideoDimensions
            ("Failed to get video dimensions for: " ++ pin ++ ". Got width=" ++
             toString v.width ++ ", height=" ++ toString v.height)),
         ⟨[], none⟩)) ∧
    (v.width ≠ 0 → v.height ≠ 0 → env.bg_decode = none →
      remove_background_from_video env pin pbg pout v =
        (.error (.backgroundImageMissing
            ("Background image not found or could not be loaded: " ++ pbg)),
         ⟨[], none⟩)) ∧
    (∀ img : Image, (cv2_resize img v.width v.height).width = v.width ∧
      (cv2_resize img v.width v.height).height = v.height) := by
  refine ⟨fun h0 => ?_, fun hw hh hbg => ?_, fun img => ⟨rfl, rfl⟩⟩
  · unfold remove_background_from_video
    rw [if_pos h0]
  · unfold remove_background_from_video
    rw [if_neg (not_or.mpr ⟨hw, hh⟩), hbg]

/-- Witness for C4: a zero-width video, a missing background image, and a
resize of the 1×1 sample image to 640×480. -/
theorem compositor_error_spec_witness :
    (remove_background_from_video env0 "in.mp4" "bg.png" "out.mp4" v_bad =
      (.error (.invalidVideoDimensions
          ("Failed to get video dimensions for: " ++ "in.mp4" ++ ". Got width=" ++
           toString v_bad.width ++ ", height=" ++ toString v_bad.height)),
       ⟨[], none⟩)) ∧
    (remove_background_from_video env_nobg "in.mp4" "bg.png" "out.mp4" v0 =
      (.error (.backgroundImageMissing
          ("Background image not found or could not be loaded: " ++ "bg.png")),
       ⟨[], none⟩)) ∧
    ((cv2_resize img0 640 480).width = 640 ∧ (cv2_resize img0 640 480).height = 480) := by
  refine ⟨?_, ?_, ?_⟩
  · exact (compositor_error_spec env0 "in.mp4" "bg.png" "out.mp4" v_bad).1 (Or.inl rfl)
  · exact (compositor_error_spec env_nobg "in.mp4" "bg.png" "out.mp4" v0).2.1
      (by decide) (by decide) rfl
  · exact (compositor_error_spec env0 "in.mp4" "bg.png"
      "out.mp4" ⟨640, 480, 30, [], none⟩).2.2 img0

/-- C5: when the input has an audio track and the mux succeeds, the final
output carries exactly the original audio samples on the new video-only
stream, encoded with codec `libx264` and audio codec `aac` — the same
fixed pair that appears after `-c:v` and `-c:a` in the transcoder's
ffmpeg command; with no audio track the video-only stream becomes the
final output by rename, with no codec applied. -/
theorem compositor_audio_spec (env : CompEnv) (pin pbg pout : String) (v : VideoInput)
    (img : Image) (hw : v.width ≠ 0) (hh : v.height ≠ 0)
    (himg : env.bg_decode = some img) :
    (∀ aud, v.audio = some aud → env.mux_ok = true →
      ∃ o : OutputVideo,
        remove_background_from_video env pin pbg pout v = (.ok (), ⟨[pout], some o⟩) ∧
          o.audio = some aud ∧ o.video_codec = some "libx264" ∧ o.audio_codec = some "aac") ∧
    (v.audio = none →
      ∃ o : OutputVideo,
        remove_background_from_video env pin pbg pout v = (.ok (), ⟨[pout], some o⟩) ∧
          o.audio = none ∧ o.video_codec = none ∧ o.audio_codec = none) ∧
    (∀ i o2 : String,
      ["-c:v", "libx264"] <:+: ffmpeg_cmd i o2 ∧ ["-c:a", "aac"] <:+: ffmpeg_cmd i o2) := by
  refine ⟨fun aud haud hm => ?_, fun haud => ?_, fun i o2 => ⟨?_, ?_⟩⟩
  · unfold remove_background_from_video
    rw [if_neg (not_or.mpr ⟨hw, hh⟩), himg, haud, hm]
    exact ⟨_, rfl, rfl, rfl, rfl⟩
  · unfold remove_background_from_video
    rw [if_neg (not_or.mpr ⟨hw, hh⟩), himg, haud]
    exact ⟨_, rfl, rfl, rfl, rfl⟩
  · exact ⟨["ffmpeg", "-i", i], ["-preset", "fast", "-crf", "23", "-c:a", "aac",
      "-b:a", "128k", "-y", o2], rfl⟩
  · exact ⟨["ffmpeg", "-i", i, "-c:v", "libx264", "-preset", "fast", "-crf", "23"],
      ["-b:a", "128k", "-y", o2], rfl⟩

/-- Witness for C5: an input with audio samples `[3, 1, 4]` and a
successful mux, and an input with no audio. -/
theorem compositor_audio_spec_witness :
    (∃ o : OutputVideo,
      remove_background_from_video env0 "in.mp4" "bg.png" "out.mp4" v0a =
          (.ok (), ⟨["out.mp4"], some o⟩) ∧
        o.audio = some [3, 1, 4] ∧ o.video_codec = some "libx264" ∧
        o.audio_codec = some "aac") ∧
    (∃ o : OutputVideo,
      remove_background_from_video env0 "in.mp4" "bg.png" "out.mp4" v0 =
          (.ok (), ⟨["out.mp4"], some o⟩) ∧
        o.audio = none ∧ o.video_codec = none ∧ o.audio_codec = none) ∧
    ["-c:v", "libx264"] <:+: ffmpeg_cmd "a.webm" "b.mp4" := by
  refine ⟨?_, ?_, ?_⟩
  · exact (compositor_audio_spec env0 "in.mp4" "bg.png" "out.mp4" v0a img0
      (by decide) (by decide) rfl).1 [3, 1, 4] rfl rfl
  · exact (compositor_audio_spec env0 "in.mp4" "bg.png" "out.mp4" v0 img0
      (by decide) (by decide) rfl).2.1 rfl
  · exact ((compositor_audio_spec env0 "in.mp4" "bg.png" "out.mp4" v0 img0
      (by decide) (by decide) rfl).2.2 "a.webm" "b.mp4").1

/-- C1: on every successful run of the compositor, the output stream
holds exactly one composited frame per decoded input frame, in order, so
its frame count equals the input's; every frame goes through the 21×21
Gaussian blur of the segmentation mask; and each composited pixel equals
`alpha * foreground + (1 - alpha) * background` per channel in
normalized `[0, 1]` space, rescaled back to 8-bit. -/
theorem compositor_blend_spec (env : CompEnv) (pin pbg pout : String)
    (v : VideoInput) (img : Image)
    (hw : v.width ≠ 0) (hh : v.height ≠ 0) (himg : env.bg_decode = some img)
    (hok : (remove_background_from_video env pin pbg pout v).1 = .ok ()) :
    ∃ o : OutputVideo,
      (remove_background_from_video env pin pbg pout v).2.output = some o ∧
      o.frames = v.frames.map (processFrame env (cv2_resize img v.width v.height)) ∧
      o.frames.length = v.frames.length ∧
      ∀ (f : Frame) (x y : Nat),
        processFrame env (cv2_resize img v.width v.height) f x y =
          (toUint8 ((env.gaussian_blur_21x21 (env.selfie_segmentation (bgr2rgb f)) x y *
                (((f x y).1 : ℚ) / 255) +
              (1 - env.gaussian_blur_21x21 (env.selfie_segmentation (bgr2rgb f)) x y) *
                ((((cv2_resize img v.width v.height).pix x y).1 : ℚ) / 255)) * 255),
           toUint8 ((env.gaussian_blur_21x21 (env.selfie_segmentation (bgr2rgb f)) x y *
                (((f x y).2.1 : ℚ) / 255) +
              (1 - env.gaussian_blur_21x21 (env.selfie_segmentation (bgr2rgb f)) x y) *
                ((((cv2_resize img v.width v.height).pix x y).2.1 : ℚ) / 255)) * 255),
           toUint8 ((env.gaussian_blur_21x21 (env.selfie_segmentation (bgr2rgb f)) x y *
                (((f x y).2.2 : ℚ) / 255) +
              (1 - env.gaussian_blur_21x21 (env.selfie_segmentation (bgr2rgb f)) x y) *
                ((((cv2_resize img v.width v.height).pix x y).2.2 : ℚ) / 255)) * 255)) := by
  unfold remove_background_from_video at hok ⊢
  rw [if_neg (not_or.mpr ⟨hw, hh⟩), himg] at hok ⊢
  cases haud : v.audio with
  | none =>
    exact ⟨_, rfl, rfl, by simp, fun f x y => rfl⟩
  | some aud =>
    rw [haud] at hok
    cases hm : env.mux_ok with
    | false => rw [hm] at hok; exact absurd hok (by simp)
    | true => exact ⟨_, rfl, rfl, by simp, fun f x y => rfl⟩

/-- Witness for C1 on a two-frame 1×1 sample video. -/
theorem compositor_blend_spec_witness :
    ∃ o : OutputVideo,
      (remove_background_from_video env0 "in.mp4" "bg.png" "out.mp4" v0).2.output = some o ∧
        o.frames.length = v0.frames.length := by
  obtain ⟨o, h1, _h2, h3, _h4⟩ := compositor_blend_spec env0 "in.mp4" "bg.png" "out.mp4"
    v0 img0 (by decide) (by decide) rfl rfl
  exact ⟨o, h1, h3⟩

/-- Counterexample to C6 as stated: with an audio track present and the
final mux raising, the compositor propagates the error without reaching
its cleanup code, and the intermediate video-only temporary file still
exists afterwards. -/
theorem temp_file_left_behind :
    (remove_background_from_video env_muxfail "in.mp4" "bg.png" "out.mp4" v0a).1 =
        .error .muxError ∧
      temp_video_path "out.mp4" ∈
        (remove_background_from_video env_muxfail "in.mp4" "bg.png" "out.mp4" v0a).2.files := by
  exact ⟨rfl, List.mem_singleton.mpr rfl⟩

/-- C6 (amended): on every path of the compositor other than a mux
failure — success with or without audio, invalid dimensions, missing
background image — the intermediate video-only temporary file does not
exist after the call; a mux failure leaves it behind. -/
theorem temp_file_removed_unless_mux_error (env : CompEnv) (pin pbg pout : String)
    (v : VideoInput)
    (h : (remove_background_from_video env pin pbg pout v).1 ≠ .error .muxError) :
    temp_video_path pout ∉ (remove_background_from_video env pin pbg pout v).2.files := by
  unfold remove_background_from_video at h ⊢
  by_cases h0 : v.width = 0 ∨ v.height = 0
  · rw [if_pos h0]
    simp
  · rw [if_neg h0] at h ⊢
    cases hbg : env.bg_decode with
    | none => simp
    | some bg0 =>
      rw [hbg] at h
      cases haud : v.audio with
      | none =>
        intro hmem
        exact append_video_only_ne pout (List.mem_singleton.mp hmem)
      | some aud =>
        rw [haud] at h
        cases hm : env.mux_ok with
        | false =>
          rw [hm] at h
          exact absurd rfl h
        | true =>
          intro hmem
          exact append_video_only_ne pout (List.mem_singleton.mp hmem)

/-- Witness for the amended C6 on a successful run. -/
theorem temp_file_removed_witness :
    temp_video_path "out.mp4" ∉
      (remove_background_from_video env0 "in.mp4" "bg.png" "out.mp4" v0a).2.files :=
  temp_file_removed_unless_mux_error env0 "in.mp4" "bg.png" "out.mp4" v0a
    (fun hc => nomatch hc)

/-- C3: the two fanout branches are isolated, in either execution order.
If the transcription service reports any status other than "completed"
(or raises), the segment's text content is untouched while a successful
compositor branch still persists the video path; symmetrically, a
compositor failure leaves a successful transcription free to persist its
text while the video path stays untouched.  Both branch tasks are total
store transformers: neither ever raises into, retries or cancels its
sibling. -/
theorem fanout_isolation_spec (store : SegmentStore) (key : String)
    (svc : Except String Transcript) (env : CompEnv) (pin pbg pout : String)
    (v : VideoInput) (eid sid : Int) (seg : Segment)
    (hseg : store (eid, sid) = some seg) :
    ((∀ t, svc = .ok t → t.status ≠ "completed") →
      (remove_background_from_video env pin pbg pout v).1 = .ok () →
      ∀ tf : Bool, run_fanout store tf key svc env pin pbg pout v eid sid (eid, sid) =
        some { seg with video_path := some (relPathForDb pout) }) ∧
    (∀ err, (remove_background_from_video env pin pbg pout v).1 = .error err →
      ∀ txt : String, txt ≠ "" → key ≠ "" → svc = .ok ⟨"completed", some txt⟩ →
      ∀ tf : Bool, run_fanout store tf key svc env pin pbg pout v eid sid (eid, sid) =
        some { seg with text_content := some txt }) := by
  constructor
  · intro ht hok tf
    have hnoop : ∀ st : SegmentStore, transcribe_video_task st key svc eid sid = st :=
      fun st => transcribe_video_task_noop st key svc eid sid
        (transcribe_audio_fst_false key svc ht)
    cases tf <;>
      simp [run_fanout, hnoop, remove_background_task, hok, update_segment_video_path, hseg]
  · intro err herr txt htxt hk hsvc tf
    have hupd : ∀ st : SegmentStore,
        remove_background_task st env pin pbg pout v eid sid = st := by
      intro st
      simp [remove_background_task, herr]
    have htask : transcribe_audio key svc = (true, "Transcription completed successfully",
        some txt) := by
      simp [transcribe_audio, hk, hsvc]
    cases tf <;>
      simp [run_fanout, hupd, transcribe_video_task, htask, pyTruthy, htxt,
        update_segment_text_content, hseg]

/-- Witness for C3: a failing transcription (no API key, service raising)
beside a successful compositor run, and a failing compositor (missing
background image) beside a completed transcription. -/
theorem fanout_isolation_spec_witness :
    (run_fanout store1 true "" (.error "down") env0 "in.mp4" "bg.png"
        "/episodes/1/out.mp4" v0 1 2 (1, 2) =
      some { seg0 with video_path := some (relPathForDb "/episodes/1/out.mp4") }) ∧
    (run_fanout store1 false "k" (.ok ⟨"completed", some "hello"⟩) env_nobg "in.mp4"
        "bg.png" "/episodes/1/out.mp4" v0 1 2 (1, 2) =
      some { seg0 with text_content := some "hello" }) := by
  constructor
  · exact (fanout_isolation_spec store1 "" (.error "down") env0 "in.mp4" "bg.png"
      "/episodes/1/out.mp4" v0 1 2 seg0 (by decide)).1 (fun t h => nomatch h) rfl true
  · exact (fanout_isolation_spec store1 "k" (.ok ⟨"completed", some "hello"⟩) env_nobg
      "in.mp4" "bg.png" "/episodes/1/out.mp4" v0 1 2 seg0 (by decide)).2
      (.backgroundImageMissing
        ("Background image not found or could not be loaded: " ++ "bg.png"))
      rfl "hello" (by decide) (by decide) rfl false

/-- Counterexample to C8 as stated: both submissions target the same
deterministic file names (there is no per-upload nonce), and the second
webm submission of the same MediaJob does not produce a second, distinct
output: the route's inline ffmpeg command — which has no `-y` flag —
fails against the mp4 left by the first run, and the except-branch
cleanup then deletes both the fresh raw upload and the previously
converted mp4, destroying the first run's successful result. -/
theorem upload_video_no_nonce_cex :
    (upload_video "/data/episodes" id true fs_empty 1 2 ".webm" [1]).2 =
      .created "/episodes/1/segments/2_video.mp4" ∧
    (upload_video "/data/episodes" id true fs_empty 1 2 ".webm" [1]).1
      "/data/episodes/1/segments/2_video.mp4" = some [1] ∧
    (upload_video "/data/episodes" id true
        (upload_video "/data/episodes" id true fs_empty 1 2 ".webm" [1]).1
        1 2 ".webm" [2]).2 = .error500 ∧
    (upload_video "/data/episodes" id true
        (upload_video "/data/episodes" id true fs_empty 1 2 ".webm" [1]).1
        1 2 ".webm" [2]).1 "/data/episodes/1/segments/2_video.mp4" = none ∧
    (upload_video "/data/episodes" id true
        (upload_video "/data/episodes" id true fs_empty 1 2 ".webm" [1]).1
        1 2 ".webm" [2]).1 "/data/episodes/1/segments/2_video.webm" = none := by
  refine ⟨?_, ?_, ?_, ?_, ?_⟩ <;> decide

/-- C8 (amended): the upload route derives its file names from the
segment id and extension alone — every successful run returns the same
deterministic relative path, with no nonce.  A non-webm re-submission
overwrites the previous file in place; a webm re-submission after a
successful conversion fails — the inline ffmpeg command has no `-y`, so
it exits non-zero against the existing mp4 whatever the encoder's state
— and the route's cleanup then deletes both the raw upload and the
previously converted mp4, so the previous successful result is never
preserved. -/
theorem upload_video_resubmission_spec (d : String) (enc : List Nat → List Nat)
    (fs : FileStore) (eid sid : Int) (ext : String) (c1 c2 : List Nat) :
    (∀ (ok : Bool) (r : String), (upload_video d enc ok fs eid sid ext c1).2 = .created r →
      r = upload_rel_path eid sid ext) ∧
    (strToLower (upload_orig_ext ext) ≠ ".webm" → ∀ ok1 ok2 : Bool,
      (upload_video d enc ok2 (upload_video d enc ok1 fs eid sid ext c1).1
          eid sid ext c2).2 = .created (upload_rel_path eid sid ext) ∧
        (upload_video d enc ok2 (upload_video d enc ok1 fs eid sid ext c1).1
            eid sid ext c2).1 (upload_raw_path d eid sid ext) = some c2) ∧
    (strToLower (upload_orig_ext ext) = ".webm" →
      fs (upload_mp4_path d eid sid) = none →
      (upload_video d enc true fs eid sid ext c1).1 (upload_mp4_path d eid sid) =
          some (enc c1) ∧
        ∀ ok2 : Bool,
          (upload_video d enc ok2 (upload_video d enc true fs eid sid ext c1).1
              eid sid ext c2).2 = .error500 ∧
            (upload_video d enc ok2 (upload_video d enc true fs eid sid ext c1).1
                eid sid ext c2).1 (upload_mp4_path d eid sid) = none ∧
            (upload_video d enc ok2 (upload_video d enc true fs eid sid ext c1).1
                eid sid ext c2).1 (upload_raw_path d eid sid ext) = none) := by
  refine ⟨fun ok r h => ?_, fun hw ok1 ok2 => ?_, fun hw h0 => ?_⟩
  · unfold upload_video at h
    by_cases hw : strToLower (upload_orig_ext ext) = ".webm"
    · rw [if_pos hw] at h
      cases hm : fs_write fs (upload_raw_path d eid sid ext) (some c1)
          (upload_mp4_path d eid sid) with
      | none =>
        rw [hm] at h
        cases ok with
        | true => cases h; rfl
        | false => exact absurd h (by simp)
      | some x =>
        rw [hm] at h
        exact absurd h (by simp)
    · rw [if_neg hw] at h
      cases h
      rfl
  · have hrun : ∀ (g : FileStore) (ok : Bool) (c : List Nat),
        upload_video d enc ok g eid sid ext c =
          (fs_write g (upload_raw_path d eid sid ext) (some c),
           .created (upload_rel_path eid sid ext)) := by
      intro g ok c
      unfold upload_video
      rw [if_neg hw]
    constructor
    · rw [hrun, hrun]
    · rw [hrun, hrun]
      simp [fs_write]
  · have hne := upload_raw_ne_mp4 d eid sid ext hw
    have hmr : ¬ (upload_mp4_path d eid sid = upload_raw_path d eid sid ext) :=
      fun he => hne he.symm
    have hscrut1 : fs_write fs (upload_raw_path d eid sid ext) (some c1)
        (upload_mp4_path d eid sid) = none := by
      simp [fs_write, hmr, h0]
    have hfirst : upload_video d enc true fs eid sid ext c1 =
        (fs_write (fs_write fs (upload_raw_path d eid sid ext) (some c1))
            (upload_mp4_path d eid sid) (some (enc c1)),
         .created (upload_rel_path eid sid ext)) := by
      unfold upload_video
      rw [if_pos hw, hscrut1]
      rfl
    have hfst : (upload_video d enc true fs eid sid ext c1).1 (upload_mp4_path d eid sid) =
        some (enc c1) := by
      rw [hfirst]
      simp [fs_write]
    have hrun2 : ∀ (g : FileStore) (x : List Nat) (ok : Bool),
        g (upload_mp4_path d eid sid) = some x →
        upload_video d enc ok g eid sid ext c2 =
          (fs_write (fs_write (fs_write g (upload_raw_path d eid sid ext) (some c2))
              (upload_raw_path d eid sid ext) none)
            (upload_mp4_path d eid sid) none,
           .error500) := by
      intro g x ok hg
      unfold upload_video
      rw [if_pos hw]
      have hs : fs_write g (upload_raw_path d eid sid ext) (some c2)
          (upload_mp4_path d eid sid) = some x := by
        simp [fs_write, hmr, hg]
      rw [hs]
    refine ⟨hfst, fun ok2 => ⟨?_, ?_, ?_⟩⟩
    · rw [hrun2 _ (enc c1) ok2 hfst]
    · rw [hrun2 _ (enc c1) ok2 hfst]
      simp [fs_write]
    · rw [hrun2 _ (enc c1) ok2 hfst]
      simp [fs_write, hne]

/-- Witness for the amended C8: a webm upload's stored path, a non-webm
re-submission overwriting in place, and a webm re-submission failing and
deleting the previous mp4. -/
theorem upload_video_resubmission_witness :
    ("/episodes/1/segments/2_video.mp4" = upload_rel_path 1 2 ".webm") ∧
    ((upload_video "/data/episodes" id true
        (upload_video "/data/episodes" id true fs_empty 1 2 ".mov" [7]).1
        1 2 ".mov" [8]).2 = .created (upload_rel_path 1 2 ".mov") ∧
      (upload_video "/data/episodes" id true
          (upload_video "/data/episodes" id true fs_empty 1 2 ".mov" [7]).1
          1 2 ".mov" [8]).1 (upload_raw_path "/data/episodes" 1 2 ".mov") = some [8]) ∧
    ((upload_video "/data/episodes" id true fs_empty 1 2 ".webm" [1]).1
        (upload_mp4_path "/data/episodes" 1 2) = some (id [1]) ∧
      (upload_video "/data/episodes" id false
          (upload_video "/data/episodes" id true fs_empty 1 2 ".webm" [1]).1
          1 2 ".webm" [2]).2 = .error500) := by
  refine ⟨?_, ?_, ?_⟩
  · exact (upload_video_resubmission_spec "/data/episodes" id fs_empty 1 2 ".webm"
      [1] [2]).1 true "/episodes/1/segments/2_video.mp4" (by decide)
  · exact (upload_video_resubmission_spec "/data/episodes" id fs_empty 1 2 ".mov"
      [7] [8]).2.1 (by decide) true true
  · obtain ⟨h1, h2⟩ := (upload_video_resubmission_spec "/data/episodes" id fs_empty 1 2
      ".webm" [1] [2]).2.2 (by decide) rfl
    exact ⟨h1, (h2 false).1⟩

/-- Counterexample to C9 as stated: the path persisted by the
background-removal branch is cut at the *first occurrence* of
`/episodes/` anywhere in the string, so a path that does not begin with
the public-media prefix is still rewritten rather than used as given. -/
theorem rel_path_not_as_given_cex :
    strStartsWith "/data/episodes/1/v.mp4" "/episodes/" = false ∧
    relPathForDb "/data/episodes/1/v.mp4" = "/episodes/1/v.mp4" ∧
    relPathForDb "/data/episodes/1/v.mp4" ≠ "/data/episodes/1/v.mp4" := by
  refine ⟨?_, ?_, ?_⟩ <;> decide

/-- C9 (amended): `generate_speech` resolves exactly the paths beginning
with `/episodes/` by joining the remainder onto the configured episodes
directory and passes every other path through unchanged; the
background-removal branch instead persists the suffix of its output path
from the first occurrence of `/episodes/` anywhere in the string (a
suffix that itself begins with `/episodes/`), and only paths with no
occurrence at all are stored as given. -/
theorem path_resolution_spec :
    (∀ dir p, strStartsWith p "/episodes/" = false → resolve_output_path dir p = p) ∧
    (∀ (dir rest : String), strStartsWith rest "/" = false → dir ≠ "" →
      strEndsWith dir "/" = false →
      resolve_output_path dir ("/episodes/" ++ rest) = dir ++ "/" ++ rest) ∧
    (∀ (p : String) (i : Nat), findSub "/episodes/".toList p.toList = some i →
      relPathForDb p = String.mk (p.toList.drop i) ∧
        strStartsWith (relPathForDb p) "/episodes/" = true) ∧
    (∀ p, findSub "/episodes/".toList p.toList = none → relPathForDb p = p) := by
  refine ⟨fun dir p h => ?_, fun dir rest hb hd he => ?_, fun p i h => ⟨?_, ?_⟩,
    fun p h => ?_⟩
  · simp [resolve_output_path, h]
  · unfold resolve_output_path
    rw [strStartsWith_append "/episodes/" rest, if_pos rfl]
    have hrepl : replaceOnce "/episodes/".toList [] ("/episodes/" ++ rest).toList =
        rest.toList := by
      have hdata : ("/episodes/" ++ rest).toList = "/episodes/".toList ++ rest.toList :=
        String.data_append _ _
      rw [hdata]
      unfold replaceOnce
      rw [findSub_append_self "/episodes/".toList rest.toList (by decide)]
      simp [List.drop_left]
    rw [hrepl, show String.mk rest.toList = rest from rfl]
    simp [path_join, hb, hd, he]
  · unfold relPathForDb
    rw [h]
  · have hdrop : relPathForDb p = String.mk (p.toList.drop i) := by
      unfold relPathForDb
      rw [h]
    rw [hdrop]
    exact findSub_isPrefixOf_drop "/episodes/".toList p.toList i h
  · unfold relPathForDb
    rw [h]

/-- Witness for the amended C9 at concrete paths. -/
theorem path_resolution_spec_witness :
    resolve_output_path "/data/episodes" "local/file.mp3" = "local/file.mp3" ∧
    resolve_output_path "/data/episodes" ("/episodes/" ++ "1/segments/2_ab.mp3") =
      "/data/episodes" ++ "/" ++ "1/segments/2_ab.mp3" ∧
    relPathForDb "/tmp/scratch/v.mp4" = "/tmp/scratch/v.mp4" := by
  refine ⟨?_, ?_, ?_⟩
  · exact path_resolution_spec.1 "/data/episodes" "local/file.mp3" (by decide)
  · exact path_resolution_spec.2.1 "/data/episodes" "1/segments/2_ab.mp3"
      (by decide) (by decide) (by decide)
  · exact path_resolution_spec.2.2.2 "/tmp/scratch/v.mp4" (by decide)

end Podcast
